import Mathlib

/-!
Shallow embedding of the Innotiva backend (Express relay for a premium
room-visualisation flow).  The repository contains four near-identical
variants of the server:
  - variant A: app.js (first block) — OpenAI dall-e-3 synthesis via fetch;
  - variant B: app.js (second block) — Replicate SDXL via the Replicate SDK;
  - variant C: app.js (third block) — OpenAI gpt-image-1 via fetch;
  - variant R: the unnamed file part_000 — Replicate SDXL via fetch.
Pure computations (message templating, response mapping, URL resolution)
become Lean functions; each outbound network call becomes an explicit
outcome parameter (an Except value: error models a thrown exception, ok a
transport response record).  JavaScript string falsiness (undefined, null
and the empty string are all falsy) is modelled on Option String by
jsTruthy.  jsTrim models JavaScript String.prototype.trim: it removes
leading and trailing whitespace characters.
-/

namespace Innotiva

/-- `s.length > 0` is false exactly for the empty string. -/
def strIsEmpty (s : String) : Bool := s.data.isEmpty

/-- JavaScript String.prototype.trim: strip leading and trailing
whitespace. -/
def jsTrim (s : String) : String :=
  ⟨((s.data.dropWhile Char.isWhitespace).reverse.dropWhile Char.isWhitespace).reverse⟩

/-- JavaScript truthiness of a possibly-absent string: undefined/null and
the empty string are falsy, every other string is truthy. -/
def jsTruthy : Option String → Bool
  | none => false
  | some s => !(strIsEmpty s)

/-- JavaScript `v || d` for a possibly-absent string value. -/
def jsOrElse (v : Option String) (d : String) : String :=
  match v with
  | some s => if strIsEmpty s then d else s
  | none => d

/-! ### Message templating (generarMensajePersonalizado)

Variants A, C and R share one body (app.js lines 28-38 and 566-576,
part_000 lines 29-40); variant B (app.js lines 301-313) adds an alternate
clause when the idea is empty and uses a different closing sentence. -/

/-- Lead sentence of the personalised message, naming the product. -/
def mensajeLead (productName : String) : String :=
  "La elección de " ++ productName ++ " encaja muy bien con el estilo de tu espacio. "

/-- Optional clause quoting the user's trimmed idea. -/
def ideaClause (t : String) : String :=
  "Tu idea de “" ++ t ++ "” aporta un toque muy personal a la composición. "

/-- Fixed closing sentence of variants A, C and R. -/
def mensajeCierre : String :=
  "Preparamos esta visualización para que puedas tomar una decisión con total seguridad, viendo cómo se transforma tu ambiente antes de comprar."

/-- The JavaScript guard `idea && idea.trim().length > 0`. -/
def ideaTieneContenido (idea : Option String) : Bool :=
  match idea with
  | none => false
  | some s => !(strIsEmpty s) && !(strIsEmpty (jsTrim s))

/-- generarMensajePersonalizado of variants A, C and R. -/
def generarMensajePersonalizado (productName : String) (idea : Option String) : String :=
  let base := mensajeLead productName
  let base := if ideaTieneContenido idea then base ++ ideaClause (jsTrim (idea.getD "")) else base
  base ++ mensajeCierre

/-- Alternate clause inserted by variant B when the idea is empty. -/
def claroCompClause : String :=
  "Nos enfocamos en una composición equilibrada y minimalista para que el producto sea protagonista sin recargar el ambiente. "

/-- Fixed closing sentence of variant B. -/
def mensajeCierreB : String :=
  "Esta visualización te ayuda a tomar decisiones con más confianza, viendo cómo se transforma tu espacio antes de comprar."

/-- generarMensajePersonalizado of variant B (app.js lines 301-313). -/
def generarMensajePersonalizadoB (productName : String) (idea : Option String) : String :=
  let base := mensajeLead productName
  let base := if ideaTieneContenido idea then base ++ ideaClause (jsTrim (idea.getD ""))
              else base ++ claroCompClause
  base ++ mensajeCierreB

/-! ### Catalog client (llamarShopifyProducts)

Variant A (app.js lines 41-93; part_000 lines 43-99 and the variant C copy
are identical) queries featuredImage and maps a missing image to null.
Variant B (app.js lines 316-393) queries images(first: 1) and substitutes a
fixed placeholder for a missing image. -/

structure FeaturedImage where
  url : String
  deriving DecidableEq, Repr

structure ShopifyNodeA where
  id : String
  title : String
  handle : String
  description : String
  availableForSale : Bool
  onlineStoreUrl : Option String
  featuredImage : Option FeaturedImage
  deriving DecidableEq, Repr

structure ProductSummaryA where
  id : String
  title : String
  handle : String
  description : String
  available : Bool
  url : Option String
  image : Option String
  deriving DecidableEq, Repr

/-- Per-record mapping of variant A (app.js lines 84-92):
image is `e.node.featuredImage ? e.node.featuredImage.url : null`. -/
def mapShopifyNodeA (n : ShopifyNodeA) : ProductSummaryA :=
  { id := n.id, title := n.title, handle := n.handle, description := n.description,
    available := n.availableForSale, url := n.onlineStoreUrl,
    image := match n.featuredImage with
             | some img => some img.url
             | none => none }

structure ImageNodeB where
  url : Option String
  altText : Option String
  deriving DecidableEq, Repr

structure ShopifyNodeB where
  id : String
  handle : String
  title : String
  description : Option String
  onlineStoreUrl : Option String
  images : List ImageNodeB
  deriving DecidableEq, Repr

structure ProductSummaryB where
  id : String
  handle : String
  title : String
  description : String
  image : String
  url : String
  deriving DecidableEq, Repr

/-- Placeholder substituted by variant B for products without an image. -/
def productoPlaceholder : String := "https://via.placeholder.com/400x400?text=Producto"

/-- Per-record mapping of variant B (app.js lines 370-390):
image is `img?.url || placeholder`, url is `node.onlineStoreUrl || built`. -/
def mapShopifyNodeB (storeDomain : String) (n : ShopifyNodeB) : ProductSummaryB :=
  let imageUrl := match n.images.head? with
    | some img => jsOrElse img.url productoPlaceholder
    | none => productoPlaceholder
  let url := jsOrElse n.onlineStoreUrl ("https://" ++ storeDomain ++ "/products/" ++ n.handle)
  { id := n.handle, handle := n.handle, title := n.title,
    description := jsOrElse n.description "", image := imageUrl, url := url }

/-- A settled HTTP transport response: ok flag, numeric status, body text,
and the parsed product nodes of the JSON payload. -/
structure ShopifyFetchA where
  ok : Bool
  status : Nat
  body : String
  nodes : List ShopifyNodeA
  deriving Repr

structure ShopifyFetchB where
  ok : Bool
  status : Nat
  body : String
  nodes : List ShopifyNodeB
  deriving Repr

def faltanCredencialesMsg : String :=
  "Faltan SHOPIFY_STORE_DOMAIN o SHOPIFY_STOREFRONT_TOKEN en .env"

/-- Error message of variant A on a non-ok transport status: it embeds the
upstream status and body. -/
def errShopifyMsg (status : Nat) (body : String) : String :=
  "Error Shopify: " ++ toString status ++ " " ++ body

/-- Fixed error message of variant B on a non-ok transport status: the
upstream status and body are only logged, not embedded. -/
def errShopifyGenericoB : String := "No se pudieron obtener los productos de Shopify"

/-- llamarShopifyProducts of variant A (app.js lines 41-93).  The outcome
parameter is the fetch result: error e models a thrown exception whose
message is e (rethrown to the route), ok a settled response. -/
def llamarShopifyProducts (shopDomain token : Option String)
    (outcome : Except String ShopifyFetchA) : Except String (List ProductSummaryA) :=
  if !(jsTruthy shopDomain) || !(jsTruthy token) then .error faltanCredencialesMsg
  else match outcome with
    | .error e => .error e
    | .ok r =>
      if !r.ok then .error (errShopifyMsg r.status r.body)
      else .ok (r.nodes.map mapShopifyNodeA)

/-- llamarShopifyProducts of variant B (app.js lines 316-393).  A missing
token only logs a warning; the store domain has a hard-coded default, so it
is a plain String here. -/
def llamarShopifyProductsB (storeDomain : String)
    (outcome : Except String ShopifyFetchB) : Except String (List ProductSummaryB) :=
  match outcome with
  | .error e => .error e
  | .ok r =>
    if !r.ok then .error errShopifyGenericoB
    else .ok (r.nodes.map (mapShopifyNodeB storeDomain))

/-- JSON shape returned by GET /productos-shopify. -/
structure CatalogResponse (α : Type) where
  status : Nat
  success : Bool
  products : Option (List α)
  error : Option String

/-- The /productos-shopify route handler, identical in every variant:
200 with the product list on success, 500 with the error message of the
thrown error otherwise. -/
def productosShopifyRoute {α : Type} (r : Except String (List α)) : CatalogResponse α :=
  match r with
  | .ok ps => { status := 200, success := true, products := some ps, error := none }
  | .error m => { status := 500, success := false, products := none, error := some m }

/-! ### Image synthesis clients

Each client takes the relevant credential, the prompt inputs, and the
outcome of its single outbound call (error models a thrown exception).  The
prompt text only feeds the provider and never influences control flow or
any claim, so the prompt inputs are carried but not re-assembled here. -/

/-- Placeholder sentinel returned by variants A, B and R on any synthesis
failure. -/
def placeholderIA : String := "https://via.placeholder.com/1024x1024?text=Propuesta+IA"

/-- Placeholder sentinel of variant C (gpt-image-1). -/
def placeholderIA500 : String := "https://via.placeholder.com/500x300?text=Propuesta+IA"

/-- The prediction object of a Replicate response; output is none when
the output field is absent or not an array. -/
structure ReplicatePrediction where
  output : Option (List String)
  deriving DecidableEq, Repr

structure ReplicateFetchResp where
  ok : Bool
  status : Nat
  body : String
  prediction : ReplicatePrediction
  deriving DecidableEq, Repr

/-- llamarReplicateImagen of variant R (part_000 lines 103-166): missing
token short-circuits to the placeholder with no call; a thrown exception,
a non-ok status, or a missing/empty output list give the placeholder; a
non-empty output list gives its first element. -/
def llamarReplicateImagen (token : Option String) (roomImageUrl productName : String)
    (idea : Option String) (outcome : Except Unit ReplicateFetchResp) : String :=
  if !(jsTruthy token) then placeholderIA
  else
    match outcome with
    | .error _ => placeholderIA
    | .ok resp =>
      if !resp.ok then placeholderIA
      else
        match resp.prediction.output with
        | some (u :: _) => u
        | some [] => placeholderIA
        | none => placeholderIA

/-- One element of the data array of an OpenAI images response; url is
none when the field is absent. -/
structure OpenAIImage where
  url : Option String
  deriving DecidableEq, Repr

structure OpenAIFetchResp where
  ok : Bool
  status : Nat
  body : String
  data : Option (List OpenAIImage)
  deriving DecidableEq, Repr

/-- llamarOpenAIImagen of variant A (app.js lines 96-144, dall-e-3).  The
success guard is `data && data.data && data.data[0] && data.data[0].url`:
the first element's url must be present and truthy (non-empty). -/
def llamarOpenAIImagen (apiKey : Option String) (productName : String)
    (idea : Option String) (outcome : Except Unit OpenAIFetchResp) : String :=
  if !(jsTruthy apiKey) then placeholderIA
  else
    match outcome with
    | .error _ => placeholderIA
    | .ok resp =>
      if !resp.ok then placeholderIA
      else
        match resp.data with
        | some (item :: _) =>
          match item.url with
          | some u => if strIsEmpty u then placeholderIA else u
          | none => placeholderIA
        | some [] => placeholderIA
        | none => placeholderIA

/-- llamarOpenAIImagen of variant C (app.js lines 632-675, gpt-image-1):
same control flow as variant A with the 500x300 placeholder. -/
def llamarOpenAIImagenGpt (apiKey : Option String) (productName : String)
    (idea : Option String) (outcome : Except Unit OpenAIFetchResp) : String :=
  if !(jsTruthy apiKey) then placeholderIA500
  else
    match outcome with
    | .error _ => placeholderIA500
    | .ok resp =>
      if !resp.ok then placeholderIA500
      else
        match resp.data with
        | some (item :: _) =>
          match item.url with
          | some u => if strIsEmpty u then placeholderIA500 else u
          | none => placeholderIA500
        | some [] => placeholderIA500
        | none => placeholderIA500

/-! ### The /experiencia-premium orchestrator -/

/-- Multipart form fields of a premium request; each may be absent. -/
structure PremiumBody where
  productId : Option String
  productName : Option String
  idea : Option String
  productUrl : Option String
  deriving DecidableEq, Repr

/-- JSON shape returned by POST /experiencia-premium: a failure response
carries only a status and an error string; a success response (HTTP 200)
carries message, userImageUrl, generatedImageUrl, productName as strings
and productUrl as a string or JSON null. -/
inductive PremiumResponse where
  | failure (status : Nat) (error : String)
  | success (message userImageUrl generatedImageUrl : String)
      (productUrl : Option String) (productName : String)
  deriving DecidableEq, Repr

def PremiumResponse.isSuccess : PremiumResponse → Bool
  | .success .. => true
  | .failure .. => false

def PremiumResponse.statusCode : PremiumResponse → Nat
  | .failure s _ => s
  | .success .. => 200

/-- The generatedImageUrl field when present. -/
def PremiumResponse.generatedImageUrl? : PremiumResponse → Option String
  | .success _ _ g _ _ => some g
  | .failure .. => none

/-- The productUrl field when present (its value may itself be null). -/
def PremiumResponse.productUrl? : PremiumResponse → Option (Option String)
  | .success _ _ _ u _ => some u
  | .failure .. => none

/-- The productName field when present. -/
def PremiumResponse.productName? : PremiumResponse → Option String
  | .success _ _ _ _ n => some n
  | .failure .. => none

/-- The message field when present. -/
def PremiumResponse.message? : PremiumResponse → Option String
  | .success m _ _ _ _ => some m
  | .failure .. => none

/-- The userImageUrl field when present. -/
def PremiumResponse.userImageUrl? : PremiumResponse → Option String
  | .success _ u _ _ _ => some u
  | .failure .. => none

/-- Which outbound collaborators the handler invoked while producing the
response.  The premium handler never queries the catalog. -/
structure Calls where
  upload : Bool
  synthesis : Bool
  catalog : Bool
  deriving DecidableEq, Repr

def noCalls : Calls := ⟨false, false, false⟩

def errRoomImage : String := "roomImage es obligatorio"

def errProductFields : String := "productId y productName son obligatorios"

def errInterno : String := "Error interno preparando la experiencia premium"

/-- Product-URL resolution of variants A and R: an explicit truthy
productUrl wins; otherwise the URL is built from the store domain when one
is configured, and stays null when not. -/
def resolveProductUrl (shopDomain productUrl : Option String) (productId : String) :
    Option String :=
  if jsTruthy productUrl then productUrl
  else if jsTruthy shopDomain then
    some ("https://" ++ shopDomain.getD "" ++ "/products/" ++ productId)
  else none

/-- POST /experiencia-premium of variant R (part_000 lines 187-257).
uploadResult is the settled Cloudinary upload promise (error rejects and is
caught by the route's catch); synth is the settled Replicate fetch. -/
def experienciaPremiumR (shopDomain token : Option String) (hasFile : Bool)
    (body : PremiumBody) (uploadResult : Except String String)
    (synth : Except Unit ReplicateFetchResp) : PremiumResponse × Calls :=
  if !hasFile then (.failure 400 errRoomImage, noCalls)
  else if !(jsTruthy body.productId) || !(jsTruthy body.productName) then
    (.failure 400 errProductFields, noCalls)
  else
    match uploadResult with
    | .error _ => (.failure 500 errInterno, { upload := true, synthesis := false, catalog := false })
    | .ok userImageUrl =>
      let productId := body.productId.getD ""
      let productName := body.productName.getD ""
      let generatedImageUrl := llamarReplicateImagen token userImageUrl productName body.idea synth
      let finalProductUrl := resolveProductUrl shopDomain body.productUrl productId
      let message := generarMensajePersonalizado productName body.idea
      (.success message userImageUrl generatedImageUrl finalProductUrl productName,
       { upload := true, synthesis := true, catalog := false })

/-- POST /experiencia-premium of variant A (app.js lines 170-233): same
orchestration with the dall-e-3 client, which takes no reference image. -/
def experienciaPremiumA (shopDomain apiKey : Option String) (hasFile : Bool)
    (body : PremiumBody) (uploadResult : Except String String)
    (synth : Except Unit OpenAIFetchResp) : PremiumResponse × Calls :=
  if !hasFile then (.failure 400 errRoomImage, noCalls)
  else if !(jsTruthy body.productId) || !(jsTruthy body.productName) then
    (.failure 400 errProductFields, noCalls)
  else
    match uploadResult with
    | .error _ => (.failure 500 errInterno, { upload := true, synthesis := false, catalog := false })
    | .ok userImageUrl =>
      let productId := body.productId.getD ""
      let productName := body.productName.getD ""
      let generatedImageUrl := llamarOpenAIImagen apiKey productName body.idea synth
      let finalProductUrl := resolveProductUrl shopDomain body.productUrl productId
      let message := generarMensajePersonalizado productName body.idea
      (.success message userImageUrl generatedImageUrl finalProductUrl productName,
       { upload := true, synthesis := true, catalog := false })

/-- POST /experiencia-premium of variant C (app.js lines 695-752,
gpt-image-1): it destructures only productId, productName and idea, so a
productUrl supplied in the request is ignored; the response productUrl is
always built from the store domain, or null when no domain is set. -/
def experienciaPremiumGpt (shopDomain apiKey : Option String) (hasFile : Bool)
    (body : PremiumBody) (uploadResult : Except String String)
    (synth : Except Unit OpenAIFetchResp) : PremiumResponse × Calls :=
  if !hasFile then (.failure 400 errRoomImage, noCalls)
  else if !(jsTruthy body.productId) || !(jsTruthy body.productName) then
    (.failure 400 errProductFields, noCalls)
  else
    match uploadResult with
    | .error _ => (.failure 500 errInterno, { upload := true, synthesis := false, catalog := false })
    | .ok userImageUrl =>
      let productId := body.productId.getD ""
      let productName := body.productName.getD ""
      let generatedImageUrl := llamarOpenAIImagenGpt apiKey productName body.idea synth
      let finalProductUrl : Option String :=
        if jsTruthy shopDomain then
          some ("https://" ++ shopDomain.getD "" ++ "/products/" ++ productId)
        else none
      let message := generarMensajePersonalizado productName body.idea
      (.success message userImageUrl generatedImageUrl finalProductUrl productName,
       { upload := true, synthesis := true, catalog := false })

/-! ### Helper lemmas -/

theorem data_append (a b : String) : (a ++ b).data = a.data ++ b.data := by
  cases a; cases b; rfl

theorem string_ext {a b : String} (h : a.data = b.data) : a = b :=
  congrArg String.mk h

/-- The JavaScript guard is equivalent to the trimmed idea being non-empty. -/
theorem ideaTieneContenido_eq (idea : Option String) :
    ideaTieneContenido idea = !(strIsEmpty (jsTrim (idea.getD ""))) := by
  cases idea with
  | none => decide
  | some s =>
    show (!(strIsEmpty s) && !(strIsEmpty (jsTrim s))) = !(strIsEmpty (jsTrim s))
    cases h : strIsEmpty s with
    | false => simp
    | true =>
      have hs : s.data = [] := by
        have := h
        unfold strIsEmpty at this
        exact List.isEmpty_iff.mp this
      simp [strIsEmpty, jsTrim, hs]

/-- The quoted-idea clause, split around the quoted trimmed idea. -/
theorem ideaClause_split (t : String) :
    ideaClause t
      = "Tu idea de " ++ ("“" ++ t ++ "”") ++ " aporta un toque muy personal a la composición. " := by
  apply string_ext
  simp [ideaClause, data_append, List.append_assoc]

/-! ### Claim theorems -/

/-- C8: for every product name and idea, the generated user-facing message
contains no quoted-idea clause when the idea is empty or whitespace-only,
and contains the idea's trimmed text verbatim in quotes when the idea is
non-empty after trimming; the message always begins with the lead sentence
naming the product and ends with the fixed closing sentence.  This covers
generarMensajePersonalizado (variants A, C and R) and the variant B copy,
whose empty-idea branch adds an unquoted stock clause instead. -/
theorem C8_mensaje_plantilla (pn : String) (idea : Option String) :
    (strIsEmpty (jsTrim (idea.getD "")) = true →
        generarMensajePersonalizado pn idea = mensajeLead pn ++ mensajeCierre
      ∧ generarMensajePersonalizadoB pn idea = mensajeLead pn ++ claroCompClause ++ mensajeCierreB)
  ∧ (strIsEmpty (jsTrim (idea.getD "")) = false →
        generarMensajePersonalizado pn idea
          = mensajeLead pn ++ ideaClause (jsTrim (idea.getD "")) ++ mensajeCierre
      ∧ ("“" ++ jsTrim (idea.getD "") ++ "”").data <:+: (generarMensajePersonalizado pn idea).data
      ∧ ("“" ++ jsTrim (idea.getD "") ++ "”").data <:+: (generarMensajePersonalizadoB pn idea).data)
  ∧ (mensajeLead pn).data <+: (generarMensajePersonalizado pn idea).data
  ∧ mensajeCierre.data <:+ (generarMensajePersonalizado pn idea).data := by
  have hc := ideaTieneContenido_eq idea
  refine ⟨?_, ?_, ?_, ?_⟩
  · intro h
    have hcf : ideaTieneContenido idea = false := by rw [hc, h]; rfl
    constructor
    · simp [generarMensajePersonalizado, hcf]
    · simp [generarMensajePersonalizadoB, hcf]
  · intro h
    have hct : ideaTieneContenido idea = true := by rw [hc, h]; rfl
    refine ⟨?_, ?_, ?_⟩
    · simp [generarMensajePersonalizado, hct]
    · refine ⟨(mensajeLead pn).data ++ ("Tu idea de " : String).data,
        (" aporta un toque muy personal a la composición. " : String).data ++ mensajeCierre.data, ?_⟩
      simp [generarMensajePersonalizado, hct, ideaClause_split, data_append, List.append_assoc]
    · refine ⟨(mensajeLead pn).data ++ ("Tu idea de " : String).data,
        (" aporta un toque muy personal a la composición. " : String).data ++ mensajeCierreB.data, ?_⟩
      simp [generarMensajePersonalizadoB, hct, ideaClause_split, data_append, List.append_assoc]
  · cases hct : ideaTieneContenido idea with
    | false =>
      refine ⟨mensajeCierre.data, ?_⟩
      simp [generarMensajePersonalizado, hct, data_append]
    | true =>
      refine ⟨(ideaClause (jsTrim (idea.getD ""))).data ++ mensajeCierre.data, ?_⟩
      simp [generarMensajePersonalizado, hct, data_append, List.append_assoc]
  · cases hct : ideaTieneContenido idea with
    | false =>
      refine ⟨(mensajeLead pn).data, ?_⟩
      simp [generarMensajePersonalizado, hct, data_append]
    | true =>
      refine ⟨(mensajeLead pn).data ++ (ideaClause (jsTrim (idea.getD ""))).data, ?_⟩
      simp [generarMensajePersonalizado, hct, data_append, List.append_assoc]

/-- C8 witness: the whitespace-only idea branch and the quoted-idea branch,
each at a concrete input. -/
theorem C8_mensaje_plantilla_testigo :
    (generarMensajePersonalizado "Cuadro Nórdico" (some "   ")
        = mensajeLead "Cuadro Nórdico" ++ mensajeCierre)
  ∧ ("“" ++ jsTrim (some "  luces cálidas " |>.getD "") ++ "”").data
      <:+: (generarMensajePersonalizado "Cuadro Nórdico" (some "  luces cálidas ")).data := by
  constructor
  · exact ((C8_mensaje_plantilla "Cuadro Nórdico" (some "   ")).1 (by decide)).1
  · exact ((C8_mensaje_plantilla "Cuadro Nórdico" (some "  luces cálidas ")).2.1 (by decide)).2.1

/-- C1: the image synthesis clients never propagate an error to the
caller: they are total functions into String.  With the provider
credential absent they return the placeholder with no regard to the call
outcome; on a thrown exception, a non-success transport status or a
payload without a non-empty output list they return the placeholder; on a
success with a non-empty output list they return its first URL (for the
OpenAI client the output list is the data array and its first URL is the
first element's truthy url field).  Covers llamarReplicateImagen
(part_000) and llamarOpenAIImagen (app.js, dall-e-3 variant). -/
theorem C1_cliente_sintesis_nunca_falla
    (token apiKey : Option String) (roomUrl pn : String) (idea : Option String)
    (ro : Except Unit ReplicateFetchResp) (oo : Except Unit OpenAIFetchResp) :
    (jsTruthy token = false → llamarReplicateImagen token roomUrl pn idea ro = placeholderIA)
  ∧ (∀ e, ro = .error e → llamarReplicateImagen token roomUrl pn idea ro = placeholderIA)
  ∧ (∀ r, ro = .ok r → r.ok = false →
      llamarReplicateImagen token roomUrl pn idea ro = placeholderIA)
  ∧ (∀ r, ro = .ok r → (r.prediction.output = none ∨ r.prediction.output = some []) →
      llamarReplicateImagen token roomUrl pn idea ro = placeholderIA)
  ∧ (∀ r u us, jsTruthy token = true → ro = .ok r → r.ok = true →
      r.prediction.output = some (u :: us) →
      llamarReplicateImagen token roomUrl pn idea ro = u)
  ∧ (jsTruthy apiKey = false → llamarOpenAIImagen apiKey pn idea oo = placeholderIA)
  ∧ (∀ e, oo = .error e → llamarOpenAIImagen apiKey pn idea oo = placeholderIA)
  ∧ (∀ r, oo = .ok r → r.ok = false → llamarOpenAIImagen apiKey pn idea oo = placeholderIA)
  ∧ (∀ r, oo = .ok r → (r.data = none ∨ r.data = some []) →
      llamarOpenAIImagen apiKey pn idea oo = placeholderIA)
  ∧ (∀ r item rest, oo = .ok r → r.data = some (item :: rest) →
      (item.url = none ∨ item.url = some "") →
      llamarOpenAIImagen apiKey pn idea oo = placeholderIA)
  ∧ (∀ r item rest u, jsTruthy apiKey = true → oo = .ok r → r.ok = true →
      r.data = some (item :: rest) → item.url = some u → strIsEmpty u = false →
      llamarOpenAIImagen apiKey pn idea oo = u) := by
  refine ⟨?_, ?_, ?_, ?_, ?_, ?_, ?_, ?_, ?_, ?_, ?_⟩
  · intro h; simp [llamarReplicateImagen, h]
  · intro e h; subst h; simp [llamarReplicateImagen]
  · intro r h hok; subst h; simp [llamarReplicateImagen, hok]
  · intro r h hout; subst h
    rcases hout with hout | hout <;> simp [llamarReplicateImagen, hout]
  · intro r u us htok h hok hout; subst h
    simp [llamarReplicateImagen, htok, hok, hout]
  · intro h; simp [llamarOpenAIImagen, h]
  · intro e h; subst h; simp [llamarOpenAIImagen]
  · intro r h hok; subst h; simp [llamarOpenAIImagen, hok]
  · intro r h hdata; subst h
    rcases hdata with hdata | hdata <;> simp [llamarOpenAIImagen, hdata]
  · intro r item rest h hdata hurl; subst h
    rcases hurl with hurl | hurl <;> simp [llamarOpenAIImagen, hdata, hurl, strIsEmpty]
  · intro r item rest u hkey h hok hdata hurl hne; subst h
    simp [llamarOpenAIImagen, hkey, hok, hdata, hurl, hne]

/-- C1 witness: missing credential, thrown call and non-empty output list,
each at a concrete input. -/
theorem C1_cliente_sintesis_nunca_falla_testigo :
    llamarReplicateImagen none "https://r" "Cuadro" none
        (.ok ⟨true, 200, "", ⟨some ["https://gen.example/a"]⟩⟩) = placeholderIA
  ∧ llamarReplicateImagen (some "tok") "https://r" "Cuadro" none
        (.ok ⟨true, 200, "", ⟨some ["https://gen.example/a"]⟩⟩) = "https://gen.example/a"
  ∧ llamarOpenAIImagen (some "key") "Cuadro" none (.error ()) = placeholderIA := by
  refine ⟨?_, ?_, ?_⟩
  · exact (C1_cliente_sintesis_nunca_falla none (some "key") "https://r" "Cuadro" none
      (.ok ⟨true, 200, "", ⟨some ["https://gen.example/a"]⟩⟩) (.error ())).1 (by decide)
  · exact (C1_cliente_sintesis_nunca_falla (some "tok") (some "key") "https://r" "Cuadro" none
      (.ok ⟨true, 200, "", ⟨some ["https://gen.example/a"]⟩⟩)
      (.error ())).2.2.2.2.1 _ _ _ (by decide) rfl rfl rfl
  · exact (C1_cliente_sintesis_nunca_falla (some "tok") (some "key") "https://r" "Cuadro" none
      (.ok ⟨true, 200, "", ⟨some ["https://gen.example/a"]⟩⟩)
      (.error ())).2.2.2.2.2.2.1 () rfl

/-- C6: when the image upload fails, the premium endpoint returns a 500
response whose error is the fixed generic internal message, the response is
independent of the upstream error detail, and the synthesis client is never
invoked (part_000 lines 211-255). -/
theorem C6_subida_falla_500_sin_sintesis
    (shopDomain token : Option String) (body : PremiumBody)
    (h1 : jsTruthy body.productId = true) (h2 : jsTruthy body.productName = true)
    (e : String) (ro : Except Unit ReplicateFetchResp) :
    experienciaPremiumR shopDomain token true body (.error e) ro
        = (.failure 500 errInterno, ⟨true, false, false⟩)
  ∧ (experienciaPremiumR shopDomain token true body (.error e) ro).2.synthesis = false
  ∧ ∀ e2 : String, experienciaPremiumR shopDomain token true body (.error e) ro
        = experienciaPremiumR shopDomain token true body (.error e2) ro := by
  refine ⟨?_, ?_, ?_⟩
  · simp [experienciaPremiumR, h1, h2]
  · simp [experienciaPremiumR, h1, h2]
  · intro e2; simp [experienciaPremiumR, h1, h2]

/-- C6 witness: a concrete rejected upload. -/
theorem C6_subida_falla_500_sin_sintesis_testigo :
    experienciaPremiumR (some "tienda.com") (some "tok") true
        ⟨some "p1", some "Cuadro", none, none⟩ (.error "cloudinary caído") (.error ())
      = (.failure 500 errInterno, ⟨true, false, false⟩) :=
  (C6_subida_falla_500_sin_sintesis (some "tienda.com") (some "tok")
    ⟨some "p1", some "Cuadro", none, none⟩ (by decide) (by decide)
    "cloudinary caído" (.error ())).1

/-- C7: a premium request missing the image payload, or missing productId
or productName, gets a 400 response with the field-specific message and no
outbound call is made (no upload, no synthesis; the handler never queries
the catalog).  Covers variants R and A. -/
theorem C7_validacion_400_sin_llamadas
    (shopDomain token apiKey : Option String) (body : PremiumBody)
    (up : Except String String) (ro : Except Unit ReplicateFetchResp)
    (oo : Except Unit OpenAIFetchResp) :
    (experienciaPremiumR shopDomain token false body up ro
        = (.failure 400 errRoomImage, noCalls))
  ∧ (experienciaPremiumA shopDomain apiKey false body up oo
        = (.failure 400 errRoomImage, noCalls))
  ∧ ((jsTruthy body.productId = false ∨ jsTruthy body.productName = false) →
        experienciaPremiumR shopDomain token true body up ro
          = (.failure 400 errProductFields, noCalls)
      ∧ experienciaPremiumA shopDomain apiKey true body up oo
          = (.failure 400 errProductFields, noCalls)) := by
  refine ⟨rfl, rfl, ?_⟩
  intro h
  rcases h with h | h <;>
    exact ⟨by simp [experienciaPremiumR, h], by simp [experienciaPremiumA, h]⟩

/-- C7 witness: a request with the image but no productId. -/
theorem C7_validacion_400_sin_llamadas_testigo :
    experienciaPremiumR (some "tienda.com") (some "tok") true
        ⟨none, some "Cuadro", none, none⟩ (.ok "https://img.example/u") (.error ())
      = (.failure 400 errProductFields, noCalls) :=
  ((C7_validacion_400_sin_llamadas (some "tienda.com") (some "tok") (some "key")
    ⟨none, some "Cuadro", none, none⟩ (.ok "https://img.example/u") (.error ())
    (.error ())).2.2 (Or.inl (by decide))).1

/-- C10: the success response's productName equals the submitted
productName exactly, with no trimming or normalization (variants R and A). -/
theorem C10_nombre_producto_eco
    (shopDomain token apiKey : Option String) (body : PremiumBody) (pn : String)
    (hpn : body.productName = some pn) (hne : strIsEmpty pn = false)
    (hpid : jsTruthy body.productId = true) (url : String)
    (ro : Except Unit ReplicateFetchResp) (oo : Except Unit OpenAIFetchResp) :
    ((experienciaPremiumR shopDomain token true body (.ok url) ro).1).productName? = some pn
  ∧ ((experienciaPremiumA shopDomain apiKey true body (.ok url) oo).1).productName? = some pn := by
  have ht : jsTruthy (some pn) = true := by simp [jsTruthy, hne]
  constructor <;>
    simp [experienciaPremiumR, experienciaPremiumA, hpid, hpn, ht,
      PremiumResponse.productName?]

/-- C10 witness: a product name with inner and outer spaces is echoed
verbatim. -/
theorem C10_nombre_producto_eco_testigo :
    ((experienciaPremiumR (some "tienda.com") (some "tok") true
        ⟨some "p1", some "  Lámpara Roja  ", none, none⟩ (.ok "https://img.example/u")
        (.error ())).1).productName? = some "  Lámpara Roja  " :=
  (C10_nombre_producto_eco (some "tienda.com") (some "tok") (some "key")
    ⟨some "p1", some "  Lámpara Roja  ", none, none⟩ "  Lámpara Roja  " rfl (by decide)
    (by decide) "https://img.example/u" (.error ()) (.error ())).1

/-- A concrete valid premium request body without an explicit product
URL. -/
def cuerpoValido : PremiumBody :=
  { productId := some "p1", productName := some "Cuadro", idea := none, productUrl := none }

/-- C2 counterexample: with a valid request and a successful upload, a
provider success whose output list is the singleton empty string makes the
endpoint answer success with an empty generatedImageUrl, refuting that the
field is never empty. -/
theorem C2_contraejemplo :
    ((experienciaPremiumR (some "tienda.com") (some "tok") true cuerpoValido
        (.ok "https://img.example/u") (.ok ⟨true, 201, "", ⟨some [""]⟩⟩)).1).isSuccess = true
  ∧ ((experienciaPremiumR (some "tienda.com") (some "tok") true cuerpoValido
        (.ok "https://img.example/u") (.ok ⟨true, 201, "", ⟨some [""]⟩⟩)).1).generatedImageUrl?
      = some "" :=
  ⟨rfl, rfl⟩

/-- C2 amended: for every valid premium request whose upload succeeds the
response is a success and its generatedImageUrl is always present, equal
to the synthesis client's result: the non-empty placeholder on a thrown
synthesis call or a missing credential, and the provider's first output
URL verbatim on a synthesis success with a non-empty output list (so it is
empty only when that first URL is itself empty).  Covers variants R
and A. -/
theorem C2_url_generada_presente
    (shopDomain token apiKey : Option String) (body : PremiumBody) (pn : String)
    (hpid : jsTruthy body.productId = true) (hpn : body.productName = some pn)
    (hne : strIsEmpty pn = false) (url : String)
    (ro : Except Unit ReplicateFetchResp) (oo : Except Unit OpenAIFetchResp) :
    ((experienciaPremiumR shopDomain token true body (.ok url) ro).1).isSuccess = true
  ∧ ((experienciaPremiumR shopDomain token true body (.ok url) ro).1).generatedImageUrl?
      = some (llamarReplicateImagen token url pn body.idea ro)
  ∧ (∀ e, ro = .error e →
      ((experienciaPremiumR shopDomain token true body (.ok url) ro).1).generatedImageUrl?
        = some placeholderIA)
  ∧ (∀ r u us, jsTruthy token = true → ro = .ok r → r.ok = true →
      r.prediction.output = some (u :: us) →
      ((experienciaPremiumR shopDomain token true body (.ok url) ro).1).generatedImageUrl?
        = some u)
  ∧ ((experienciaPremiumA shopDomain apiKey true body (.ok url) oo).1).isSuccess = true
  ∧ ((experienciaPremiumA shopDomain apiKey true body (.ok url) oo).1).generatedImageUrl?
      = some (llamarOpenAIImagen apiKey pn body.idea oo)
  ∧ (∀ e, oo = .error e →
      ((experienciaPremiumA shopDomain apiKey true body (.ok url) oo).1).generatedImageUrl?
        = some placeholderIA)
  ∧ strIsEmpty placeholderIA = false := by
  have ht : jsTruthy (some pn) = true := by simp [jsTruthy, hne]
  refine ⟨?_, ?_, ?_, ?_, ?_, ?_, ?_, by decide⟩
  · simp [experienciaPremiumR, hpid, hpn, ht, PremiumResponse.isSuccess]
  · simp [experienciaPremiumR, hpid, hpn, ht, PremiumResponse.generatedImageUrl?]
  · intro e he; subst he
    simp [experienciaPremiumR, hpid, hpn, ht, PremiumResponse.generatedImageUrl?,
      llamarReplicateImagen]
  · intro r u us htok hro hok hout; subst hro
    simp [experienciaPremiumR, hpid, hpn, ht, PremiumResponse.generatedImageUrl?,
      llamarReplicateImagen, htok, hok, hout]
  · simp [experienciaPremiumA, hpid, hpn, ht, PremiumResponse.isSuccess]
  · simp [experienciaPremiumA, hpid, hpn, ht, PremiumResponse.generatedImageUrl?]
  · intro e he; subst he
    simp [experienciaPremiumA, hpid, hpn, ht, PremiumResponse.generatedImageUrl?,
      llamarOpenAIImagen]

/-- C2 witness: a thrown synthesis call still yields success with the
placeholder. -/
theorem C2_url_generada_presente_testigo :
    ((experienciaPremiumR (some "tienda.com") (some "tok") true cuerpoValido
        (.ok "https://img.example/u") (.error ())).1).generatedImageUrl? = some placeholderIA :=
  (C2_url_generada_presente (some "tienda.com") (some "tok") (some "key") cuerpoValido
    "Cuadro" (by decide) rfl (by decide) "https://img.example/u" (.error ())
    (.error ())).2.2.1 () rfl

/-- A concrete variant B product record with no image. -/
def nodoSinImagenB : ShopifyNodeB :=
  { id := "gid1", handle := "cuadro-nordico", title := "Cuadro Nórdico",
    description := some "desc", onlineStoreUrl := none, images := [] }

/-- C3 counterexample: in the Replicate SDK variant a record with no image
maps its image field to the fixed product placeholder URL — a substitute
value, not null — refuting the claim for that catalog client. -/
theorem C3_contraejemplo :
    (mapShopifyNodeB "tienda.com" nodoSinImagenB).image
      = "https://via.placeholder.com/400x400?text=Producto" := rfl

/-- C3 amended: the featuredImage-based catalog clients (variants A, C and
part_000) map a record with no image to a null image field and a record
with an image to its URL, never omitting the field and never throwing; the
Replicate SDK variant instead substitutes the fixed product placeholder
URL. -/
theorem C3_imagen_faltante (n : ShopifyNodeA) (d : String) (nb : ShopifyNodeB) :
    (n.featuredImage = none → (mapShopifyNodeA n).image = none)
  ∧ (∀ img, n.featuredImage = some img → (mapShopifyNodeA n).image = some img.url)
  ∧ (nb.images = [] → (mapShopifyNodeB d nb).image = productoPlaceholder) := by
  refine ⟨?_, ?_, ?_⟩
  · intro h; simp [mapShopifyNodeA, h]
  · intro img h; simp [mapShopifyNodeA, h]
  · intro h; simp [mapShopifyNodeB, h]

/-- C3 witness: a concrete imageless record under the variant A mapping. -/
theorem C3_imagen_faltante_testigo :
    (mapShopifyNodeA
      ⟨"gid1", "Cuadro Nórdico", "cuadro-nordico", "desc", true, none, none⟩).image = none :=
  (C3_imagen_faltante ⟨"gid1", "Cuadro Nórdico", "cuadro-nordico", "desc", true, none, none⟩
    "tienda.com" nodoSinImagenB).1 rfl

/-- A concrete valid premium request body carrying an explicit product
URL. -/
def cuerpoConUrl : PremiumBody :=
  { productId := some "p1", productName := some "Cuadro", idea := none,
    productUrl := some "https://externo.example/prod" }

/-- C4 counterexample: the gpt-image-1 variant ignores the supplied
productUrl and answers with the URL built from the store domain. -/
theorem C4_contraejemplo :
    ((experienciaPremiumGpt (some "tienda.com") (some "key") true cuerpoConUrl
        (.ok "https://img.example/u")
        (.ok ⟨true, 200, "", some [⟨some "https://gen.example/a"⟩]⟩)).1).productUrl?
      = some (some "https://tienda.com/products/p1")
  ∧ some (some "https://tienda.com/products/p1")
      ≠ some cuerpoConUrl.productUrl := ⟨rfl, by decide⟩

/-- C4 amended: in the variants that read productUrl from the request
(R and A), a supplied truthy productUrl is echoed exactly and, absent one,
with a store domain configured the result is built as
https domain /products/ productId; the gpt-image-1 variant ignores any
supplied productUrl and always builds the URL from the store domain (null
when none is configured). -/
theorem C4_url_producto
    (shopDomain token apiKey : Option String) (body : PremiumBody)
    (hpid : jsTruthy body.productId = true) (hpn : jsTruthy body.productName = true)
    (url : String) (ro : Except Unit ReplicateFetchResp) (oo : Except Unit OpenAIFetchResp) :
    (jsTruthy body.productUrl = true →
        ((experienciaPremiumR shopDomain token true body (.ok url) ro).1).productUrl?
          = some body.productUrl
      ∧ ((experienciaPremiumA shopDomain apiKey true body (.ok url) oo).1).productUrl?
          = some body.productUrl)
  ∧ (jsTruthy body.productUrl = false → jsTruthy shopDomain = true →
        ((experienciaPremiumR shopDomain token true body (.ok url) ro).1).productUrl?
          = some (some ("https://" ++ shopDomain.getD "" ++ "/products/"
              ++ body.productId.getD ""))
      ∧ ((experienciaPremiumA shopDomain apiKey true body (.ok url) oo).1).productUrl?
          = some (some ("https://" ++ shopDomain.getD "" ++ "/products/"
              ++ body.productId.getD "")))
  ∧ ((experienciaPremiumGpt shopDomain apiKey true body (.ok url) oo).1).productUrl?
      = some (if jsTruthy shopDomain then
          some ("https://" ++ shopDomain.getD "" ++ "/products/" ++ body.productId.getD "")
        else none) := by
  refine ⟨?_, ?_, ?_⟩
  · intro h
    constructor <;>
      simp [experienciaPremiumR, experienciaPremiumA, hpid, hpn, resolveProductUrl, h,
        PremiumResponse.productUrl?]
  · intro h hd
    constructor <;>
      simp [experienciaPremiumR, experienciaPremiumA, hpid, hpn, resolveProductUrl, h, hd,
        PremiumResponse.productUrl?]
  · simp [experienciaPremiumGpt, hpid, hpn, PremiumResponse.productUrl?]

/-- C4 witness: echo of an explicit URL and construction without one, at
concrete inputs. -/
theorem C4_url_producto_testigo :
    ((experienciaPremiumR (some "tienda.com") (some "tok") true cuerpoConUrl
        (.ok "https://img.example/u") (.error ())).1).productUrl?
      = some (some "https://externo.example/prod")
  ∧ ((experienciaPremiumR (some "tienda.com") (some "tok") true cuerpoValido
        (.ok "https://img.example/u") (.error ())).1).productUrl?
      = some (some "https://tienda.com/products/p1") := by
  constructor
  · exact ((C4_url_producto (some "tienda.com") (some "tok") (some "key") cuerpoConUrl
      (by decide) (by decide) "https://img.example/u" (.error ()) (.error ())).1
        (by decide)).1
  · exact ((C4_url_producto (some "tienda.com") (some "tok") (some "key") cuerpoValido
      (by decide) (by decide) "https://img.example/u" (.error ()) (.error ())).2.1
        (by decide) (by decide)).1

/-- C5 counterexample: a valid request with no explicit productUrl and no
configured store domain yields a success response whose productUrl is
null, refuting that every success response has all fields non-null. -/
theorem C5_contraejemplo :
    ((experienciaPremiumR none (some "tok") true cuerpoValido (.ok "https://img.example/u")
        (.ok ⟨true, 200, "", ⟨some ["https://gen.example/a"]⟩⟩)).1).isSuccess = true
  ∧ ((experienciaPremiumR none (some "tok") true cuerpoValido (.ok "https://img.example/u")
        (.ok ⟨true, 200, "", ⟨some ["https://gen.example/a"]⟩⟩)).1).productUrl?
      = some none := ⟨rfl, rfl⟩

/-- C5 amended: every success response of the premium endpoint carries
status 200 and populated message, userImageUrl, generatedImageUrl and
productName; productUrl is populated unless the request supplied no truthy
productUrl and no store domain is configured, in which case it is null; on
a thrown synthesis call generatedImageUrl is the fixed placeholder rather
than absent.  Covers both cited handlers: variant R (part_000) and the
app.js dall-e-3 variant A. -/
theorem C5_respuesta_poblada
    (shopDomain token apiKey : Option String) (body : PremiumBody) (pn : String)
    (hpid : jsTruthy body.productId = true) (hpn : body.productName = some pn)
    (hne : strIsEmpty pn = false) (url : String) (ro : Except Unit ReplicateFetchResp)
    (oo : Except Unit OpenAIFetchResp) :
    (experienciaPremiumR shopDomain token true body (.ok url) ro).1
      = .success (generarMensajePersonalizado pn body.idea) url
          (llamarReplicateImagen token url pn body.idea ro)
          (resolveProductUrl shopDomain body.productUrl (body.productId.getD "")) pn
  ∧ (experienciaPremiumA shopDomain apiKey true body (.ok url) oo).1
      = .success (generarMensajePersonalizado pn body.idea) url
          (llamarOpenAIImagen apiKey pn body.idea oo)
          (resolveProductUrl shopDomain body.productUrl (body.productId.getD "")) pn
  ∧ ((experienciaPremiumR shopDomain token true body (.ok url) ro).1).statusCode = 200
  ∧ ((experienciaPremiumA shopDomain apiKey true body (.ok url) oo).1).statusCode = 200
  ∧ (jsTruthy body.productUrl = true ∨ jsTruthy shopDomain = true →
      ∃ u, ((experienciaPremiumR shopDomain token true body (.ok url) ro).1).productUrl?
          = some (some u)
        ∧ ((experienciaPremiumA shopDomain apiKey true body (.ok url) oo).1).productUrl?
          = some (some u))
  ∧ (jsTruthy body.productUrl = false → jsTruthy shopDomain = false →
      ((experienciaPremiumR shopDomain token true body (.ok url) ro).1).productUrl?
          = some none
    ∧ ((experienciaPremiumA shopDomain apiKey true body (.ok url) oo).1).productUrl?
          = some none)
  ∧ (∀ e, ro = .error e →
      ((experienciaPremiumR shopDomain token true body (.ok url) ro).1).generatedImageUrl?
        = some placeholderIA)
  ∧ (∀ e, oo = .error e →
      ((experienciaPremiumA shopDomain apiKey true body (.ok url) oo).1).generatedImageUrl?
        = some placeholderIA) := by
  have ht : jsTruthy (some pn) = true := by simp [jsTruthy, hne]
  have hR : (experienciaPremiumR shopDomain token true body (.ok url) ro).1
      = .success (generarMensajePersonalizado pn body.idea) url
          (llamarReplicateImagen token url pn body.idea ro)
          (resolveProductUrl shopDomain body.productUrl (body.productId.getD "")) pn := by
    simp [experienciaPremiumR, hpid, hpn, ht]
  have hA : (experienciaPremiumA shopDomain apiKey true body (.ok url) oo).1
      = .success (generarMensajePersonalizado pn body.idea) url
          (llamarOpenAIImagen apiKey pn body.idea oo)
          (resolveProductUrl shopDomain body.productUrl (body.productId.getD "")) pn := by
    simp [experienciaPremiumA, hpid, hpn, ht]
  refine ⟨hR, hA, ?_, ?_, ?_, ?_, ?_, ?_⟩
  · rw [hR]; rfl
  · rw [hA]; rfl
  · intro h
    have hres : ∃ u, resolveProductUrl shopDomain body.productUrl (body.productId.getD "")
        = some u := by
      rcases h with h | h
      · cases hu : body.productUrl with
        | none => rw [hu] at h; simp [jsTruthy] at h
        | some u2 =>
          rw [hu] at h
          exact ⟨u2, by simp [resolveProductUrl, hu, h]⟩
      · cases hv : jsTruthy body.productUrl with
        | true =>
          cases hu : body.productUrl with
          | none => rw [hu] at hv; simp [jsTruthy] at hv
          | some u2 =>
            rw [hu] at hv
            exact ⟨u2, by simp [resolveProductUrl, hu, hv]⟩
        | false => exact ⟨"https://" ++ shopDomain.getD "" ++ "/products/"
              ++ body.productId.getD "", by simp [resolveProductUrl, hv, h]⟩
    rcases hres with ⟨u, hu⟩
    exact ⟨u, by rw [hR]; simp [PremiumResponse.productUrl?, hu],
      by rw [hA]; simp [PremiumResponse.productUrl?, hu]⟩
  · intro h hd
    have hres : resolveProductUrl shopDomain body.productUrl (body.productId.getD "")
        = none := by simp [resolveProductUrl, h, hd]
    exact ⟨by rw [hR]; simp [PremiumResponse.productUrl?, hres],
      by rw [hA]; simp [PremiumResponse.productUrl?, hres]⟩
  · intro e he; subst he
    rw [hR]; simp [PremiumResponse.generatedImageUrl?, llamarReplicateImagen]
  · intro e he; subst he
    rw [hA]; simp [PremiumResponse.generatedImageUrl?, llamarOpenAIImagen]

/-- C5 witness: with a configured domain and a thrown synthesis call both
handlers' success responses are fully populated and carry the
placeholder. -/
theorem C5_respuesta_poblada_testigo :
    (experienciaPremiumR (some "tienda.com") (some "tok") true cuerpoValido
        (.ok "https://img.example/u") (.error ())).1
      = .success (generarMensajePersonalizado "Cuadro" none) "https://img.example/u"
          placeholderIA (some "https://tienda.com/products/p1") "Cuadro"
  ∧ (experienciaPremiumA (some "tienda.com") (some "key") true cuerpoValido
        (.ok "https://img.example/u") (.error ())).1
      = .success (generarMensajePersonalizado "Cuadro" none) "https://img.example/u"
          placeholderIA (some "https://tienda.com/products/p1") "Cuadro" := by
  have h := C5_respuesta_poblada (some "tienda.com") (some "tok") (some "key") cuerpoValido
    "Cuadro" (by decide) rfl (by decide) "https://img.example/u" (.error ()) (.error ())
  constructor
  · simpa [cuerpoValido, llamarReplicateImagen, resolveProductUrl, jsTruthy] using h.1
  · simpa [cuerpoValido, llamarOpenAIImagen, resolveProductUrl, jsTruthy] using h.2.1

/-- C9 counterexample: the Replicate SDK catalog client's error on a 503
with a distinctive body is the fixed generic message, which carries
neither the upstream status nor the body. -/
theorem C9_contraejemplo :
    llamarShopifyProductsB "tienda.com" (.ok ⟨false, 503, "upstream caído", []⟩)
        = .error errShopifyGenericoB
  ∧ ¬ (("503" : String).data <:+: errShopifyGenericoB.data)
  ∧ ¬ (("upstream caído" : String).data <:+: errShopifyGenericoB.data) :=
  ⟨rfl, by decide, by decide⟩

/-- C9 amended: on a non-success transport status the variant A catalog
client fails with an error embedding the upstream status and body, and the
catalog endpoint then returns 500 with success false, a string error and
no product list; the Replicate SDK variant also fails and returns 500, but
its error message is a fixed generic string. -/
theorem C9_catalogo_error_transporte
    (shopDomain token : Option String) (hd : jsTruthy shopDomain = true)
    (ht : jsTruthy token = true) (r : ShopifyFetchA) (hok : r.ok = false)
    (dB : String) (rB : ShopifyFetchB) (hokB : rB.ok = false) :
    llamarShopifyProducts shopDomain token (.ok r)
        = .error (errShopifyMsg r.status r.body)
  ∧ (toString r.status).data <:+: (errShopifyMsg r.status r.body).data
  ∧ r.body.data <:+ (errShopifyMsg r.status r.body).data
  ∧ productosShopifyRoute (llamarShopifyProducts shopDomain token (.ok r))
      = { status := 500, success := false, products := none,
          error := some (errShopifyMsg r.status r.body) }
  ∧ llamarShopifyProductsB dB (.ok rB) = .error errShopifyGenericoB
  ∧ productosShopifyRoute (llamarShopifyProductsB dB (.ok rB))
      = { status := 500, success := false, products := none,
          error := some errShopifyGenericoB } := by
  have h1 : llamarShopifyProducts shopDomain token (.ok r)
      = .error (errShopifyMsg r.status r.body) := by
    simp [llamarShopifyProducts, hd, ht, hok]
  have h2 : llamarShopifyProductsB dB (.ok rB) = .error errShopifyGenericoB := by
    simp [llamarShopifyProductsB, hokB]
  refine ⟨h1, ?_, ?_, ?_, h2, ?_⟩
  · exact ⟨("Error Shopify: " : String).data, (" " ++ r.body).data,
      by simp [errShopifyMsg, data_append, List.append_assoc]⟩
  · exact ⟨("Error Shopify: " ++ toString r.status ++ " ").data,
      by simp [errShopifyMsg, data_append, List.append_assoc]⟩
  · rw [h1]; rfl
  · rw [h2]; rfl

/-- C9 witness: a concrete 503 with body under the variant A client and
route. -/
theorem C9_catalogo_error_transporte_testigo :
    llamarShopifyProducts (some "tienda.com") (some "tok")
        (.ok ⟨false, 503, "upstream caído", []⟩)
      = .error (errShopifyMsg 503 "upstream caído")
  ∧ ("503" : String).data <:+: (errShopifyMsg 503 "upstream caído").data := by
  have h := C9_catalogo_error_transporte (some "tienda.com") (some "tok") (by decide)
    (by decide) ⟨false, 503, "upstream caído", []⟩ rfl "tienda.com"
    ⟨false, 503, "upstream caído", []⟩ rfl
  exact ⟨h.1, h.2.1⟩

end Innotiva
